import Mathlib

/-!
Shallow embedding of the egjs-infinitegrid windowed layout engine.

The embedded code comes from `src/InfiniteGrid.js` (orchestrator: insertion,
eviction driver `_adjustRange`, layout completion `_postLayout`, snapshot
`getStatus`/`setStatus`, the prepend double-check timer) and
`src/eventHandler.js` (the scroll trigger `_onScroll`).

`LayoutManager.js` and `consts.js` are not part of the provided sources; the
operations of theirs that the orchestrator calls (`getDelimiterIndex`,
`adjustItems`, `fit`, `getLogicalHeight`, `itemize`, `getTopItem`,
`getBottomItem`, the layout-manager snapshot, and the constant `RETRY`) are
modelled from the specification and are marked as such in their doc comments.

DOM state is represented by the fields the code actually reads and writes:
the container's markup and style text, the container height, and the browser
scroll offset (`viewScrollTop`, read by `utils.scrollTop()` and written by
`view.scrollTo`).  Events published on the event bus (`append`, `prepend`,
`layoutComplete`) and calls to `view.scrollTo` are collected in an output
list so that emission order is observable.
-/

namespace InfiniteGrid

/-- One materialized card item as tracked by the layout manager: the identity
of its visual element, its group key, and its computed vertical position. -/
structure LMItem where
  key : Nat
  groupKey : Option Int
  posY : Int
deriving DecidableEq

/-- A raw card element supplied to `append`/`prepend`: identity plus its DOM
tag name (the insertion filter inspects `tagName`). -/
structure Element where
  key : Nat
  tagName : String
deriving DecidableEq

/-- The option object assembled in the constructor (the fields the embedded
code reads: `count` and `threshold`). -/
structure Options where
  count : Int
  threshold : Int
deriving DecidableEq

/-- The `_status` record of `InfiniteGrid` (`_reset`). -/
structure Status where
  isProcessing : Bool
  isRecycling : Bool
  prevScrollTop : Int
  clientHeight : Int
  topElement : Option Nat
  bottomElement : Option Nat
deriving DecidableEq

/-- The `_timer` record: the double-check interval is modelled by an active
flag plus its remaining attempt budget. -/
structure Timer where
  doubleCheckCount : Int
  doubleCheckActive : Bool
deriving DecidableEq

/-- The whole instance state: options, `_status`, `_timer`, the layout
manager's item window and column heights, the container element's height,
markup and style text, and the browser scroll offset. -/
structure Grid where
  options : Options
  status : Status
  timer : Timer
  items : List LMItem
  colHeights : List Int
  containerHeight : Int
  viewScrollTop : Int
  elHtml : String
  elCssText : String
deriving DecidableEq

/-- Observable outputs: event-bus notifications and viewport repositioning. -/
inductive Event where
  | append (scrollTop : Int)
  | prepend (scrollTop : Int)
  | scrollTo (y : Int)
  | layoutComplete (targetLen : Nat) (isAppend : Bool) (distance : Int)
      (croppedCount : Nat)
deriving DecidableEq

/-- Modelled from the spec: the constant `RETRY` lives in `consts.js`, which
is not under the provided sources; the spec only requires a "fixed small
attempt budget" for the post-prepend polling loop. -/
def RETRY : Int := 3

/-- Embedding of `isRecycling()` : `(this.options.count > 0) && this._status.isRecycling`. -/
def isRecyclingOf (count : Int) (recFlag : Bool) : Bool :=
  decide (0 < count) && recFlag

/-- Embedding of `isRecycling()` on a grid state. -/
def isRecycling (g : Grid) : Bool :=
  isRecyclingOf g.options.count g.status.isRecycling

/-- Modelled from the spec: `LayoutManager.getTopItem` (`LayoutManager.js` is
not under the provided sources).  Edge lookup returning the item at rank 0 of
the window. -/
def getTopItem (items : List LMItem) : Option LMItem :=
  items.head?

/-- Modelled from the spec: `LayoutManager.getBottomItem` (`LayoutManager.js`
is not under the provided sources).  Edge lookup returning the item at rank
N−1 of the window. -/
def getBottomItem (items : List LMItem) : Option LMItem :=
  items.getLast?

/-- Embedding of `getTopElement()` : the top item's element, when one exists. -/
def getTopElement (g : Grid) : Option Nat :=
  (getTopItem g.items).map LMItem.key

/-- Embedding of `getBottomElement()` : the bottom item's element, when one exists. -/
def getBottomElement (g : Grid) : Option Nat :=
  (getBottomItem g.items).map LMItem.key

/-- Modelled from the spec: `LayoutManager.getLogicalHeight`
(`LayoutManager.js` is not under the provided sources): the maximum column
height, defining the overall content extent. -/
def getLogicalHeight (g : Grid) : Int :=
  match g.colHeights with
  | [] => 0
  | h :: t => t.foldl max h

/-- Modelled from the spec: `LayoutManager.fit` (`LayoutManager.js` is not
under the provided sources): recomputes the minimum column height and shifts
every item upward by that amount, returning the shifted distance; returns 0
if no shift occurred. -/
def fit (g : Grid) : Int × Grid :=
  match g.colHeights with
  | [] => (0, g)
  | h :: t =>
    let y := t.foldl min h
    (y, { g with
            items := g.items.map (fun it => { it with posY := it.posY - y }),
            colHeights := (h :: t).map (fun c => c - y) })

/-- Embedding of `_fitItems()` : runs `fit` and refreshes the container height when a
nonzero shift occurred. -/
def _fitItems (g : Grid) : Int × Grid :=
  let r := fit g
  if r.1 = 0 then r
  else (r.1, { r.2 with containerHeight := getLogicalHeight r.2 })

/-- A group boundary sits between ranks `i - 1` and `i` of the window: both
ranks exist and their group keys differ. -/
def isBoundary (items : List LMItem) (i : Nat) : Bool :=
  match items.get? (i - 1), items.get? i with
  | some a, some b => decide (1 ≤ i) && decide (¬a.groupKey = b.groupKey)
  | _, _ => false

/-- Modelled from the spec: `LayoutManager.getDelimiterIndex`
(`LayoutManager.js` is not under the provided sources).  Given how many items
exceed capacity, returns the rank index up to which eviction must extend to
both satisfy the overflow count and respect group boundaries; returns −1 if
no valid boundary-respecting index exists within the current window.  For
`isTop` (eviction from the front) it is the smallest boundary rank covering
the overflow; otherwise the largest boundary rank whose suffix covers it. -/
def getDelimiterIndex (items : List LMItem) (isTop : Bool) (overflow : Int) :
    Int :=
  if isTop then
    match (List.range items.length).find?
        (fun (i : Nat) => decide (overflow ≤ (i : Int)) && isBoundary items i) with
    | some i => (i : Int)
    | none => -1
  else
    match (List.range items.length).reverse.find?
        (fun (i : Nat) => decide ((i : Int) ≤ (items.length : Int) - overflow) &&
          isBoundary items i) with
    | some i => (i : Int)
    | none => -1

/-- Modelled from the spec: `LayoutManager.adjustItems` (`LayoutManager.js`
is not under the provided sources): removes the items up to the delimiter
rank from the end opposite the insertion direction, returning the evicted
items first and the remaining window second. -/
def adjustItems (items : List LMItem) (isTop : Bool) (idx : Nat) :
    List LMItem × List LMItem :=
  if isTop then (items.take idx, items.drop idx)
  else (items.drop idx, items.take idx)

/-- The batch trim of `_adjustRange`: when `count <= elements.length`, an
appending insertion keeps the last `count` supplied elements
(`splice(0, length - count)`), a prepending one keeps the first `count`
(`splice(count)`). -/
def trimmedElements (count : Int) (isTop : Bool) (elements : List Element) :
    List Element :=
  if count ≤ (elements.length : Int) then
    if isTop then elements.drop (elements.length - count.toNat)
    else elements.take count.toNat
  else elements

/-- Number of supplied elements dropped by the batch trim of `_adjustRange`. -/
def trimmedCount (count : Int) (elements : List Element) : Nat :=
  if count ≤ (elements.length : Int) then elements.length - count.toNat else 0

/-- Embedding of `const diff = this.layoutManager.items.length + elements.length -
this.options.count` (with `elements` already trimmed). -/
def adjustDiff (count : Int) (items : List LMItem) (elements : List Element) :
    Int :=
  (items.length : Int) + (elements.length : Int) - count

/-- Removes the first element with the given key, mirroring
`elements.indexOf(v.el)` followed by `splice(idx, 1)`. -/
def removeFirst (els : List Element) (k : Nat) : List Element :=
  match els with
  | [] => []
  | e :: rest => if e.key = k then rest else e :: removeFirst rest k

/-- The `targets.forEach` loop of `_adjustRange`: each evicted item whose
element is still in the supplied batch is spliced out of it (an element not
found there is removed from the document instead, which the batch does not
observe). -/
def spliceTargets (els : List Element) (targets : List LMItem) : List Element :=
  targets.foldl (fun acc t => removeFirst acc t.key) els

/-- Result of `_adjustRange`: the `removedCount` it returns, the supplied
batch after trimming/splicing, and the item window after eviction. -/
structure AdjustOut where
  removedCount : Nat
  elements : List Element
  items : List LMItem
deriving DecidableEq

/-- Embedding of `_adjustRange(isTop, elements)` from `src/InfiniteGrid.js`: returns 0 and
leaves everything alone unless recycling; trims the incoming batch down to
`count`; computes the overflow `diff`; when `diff <= 0` or
`getDelimiterIndex` yields a negative index, evicts nothing from the window;
otherwise evicts through `adjustItems` at the delimiter rank and splices any
evicted element out of the incoming batch. -/
def _adjustRange (count : Int) (recFlag : Bool) (items : List LMItem)
    (isTop : Bool) (elements : List Element) : AdjustOut :=
  if isRecyclingOf count recFlag = false then ⟨0, elements, items⟩
  else if adjustDiff count items (trimmedElements count isTop elements) ≤ 0 ∨
      getDelimiterIndex items isTop
        (adjustDiff count items (trimmedElements count isTop elements)) < 0 then
    ⟨trimmedCount count elements, trimmedElements count isTop elements, items⟩
  else
    ⟨trimmedCount count elements +
        (adjustItems items isTop
          (getDelimiterIndex items isTop
            (adjustDiff count items
              (trimmedElements count isTop elements))).toNat).1.length,
      spliceTargets (trimmedElements count isTop elements)
        (adjustItems items isTop
          (getDelimiterIndex items isTop
            (adjustDiff count items
              (trimmedElements count isTop elements))).toNat).1,
      (adjustItems items isTop
        (getDelimiterIndex items isTop
          (adjustDiff count items
            (trimmedElements count isTop elements))).toNat).2⟩

/-- The card filter of `_prepareElement`:
`elements.filter(v => /DIV|SPAN|LI/.test(v.tagName))`.  The regular
expression is unanchored, so it tests whether the tag name *contains* one of
the three patterns as a substring. -/
def matchesCardTag (t : String) : Bool :=
  decide ("DIV".toList <:+: t.toList) || decide ("SPAN".toList <:+: t.toList)
    || decide ("LI".toList <:+: t.toList)

/-- Embedding of `_prepareElement(paramElements)` : filters the supplied elements by tag,
raises the processing flag, and latches the recycling flag once the window
plus the batch reaches the configured count. -/
def _prepareElement (g : Grid) (paramElements : List Element) :
    Grid × List Element :=
  let elements := paramElements.filter (fun v => matchesCardTag v.tagName)
  let g1 := { g with status.isProcessing := true }
  let g2 :=
    if isRecycling g1 = false then
      { g1 with status.isRecycling :=
          decide (g1.options.count ≤
            (g1.items.length : Int) + (elements.length : Int)) }
    else g1
  (g2, elements)

/-- Modelled from the spec: `LayoutManager.itemize` (`LayoutManager.js` is
not under the provided sources): converts raw elements into items tagged with
the supplied group key, preserving input order; positions are assigned later
by the layout pass. -/
def itemize (els : List Element) (groupKey : Option Int) : List LMItem :=
  els.map (fun e => { key := e.key, groupKey := groupKey, posY := 0 })

/-- The layout request `_insert` hands to `layout(false, addItems, options)`:
the number of items in the batch and the private options record. -/
structure LayoutOpts where
  isAppend : Bool
  removedCount : Nat
deriving DecidableEq

/-- A scheduled asynchronous layout cycle (the `_waitResource` /
`setTimeout` continuation that will run `_onLayoutComplete`). -/
structure PendingLayout where
  addLen : Nat
  opts : LayoutOpts
deriving DecidableEq

/-- Result of `_insert`: the returned count, the synchronously updated state,
and the layout cycle it scheduled (none on the rejection path). -/
structure InsertOut where
  count : Nat
  grid : Grid
  pending : Option PendingLayout
deriving DecidableEq

/-- Embedding of `_insert(paramElements, groupKey, isAppend)` from `src/InfiniteGrid.js`.
Rejects (returning 0, touching nothing, scheduling nothing) while processing
or when no elements were supplied; otherwise filters the batch, raises the
processing flag, runs `_adjustRange`, inserts the surviving clones into the
container, schedules `layout(false, itemize(cloneElements, groupKey),
{isAppend, removedCount})`, and returns `cloneElements.length`. -/
def _insert (g : Grid) (paramElements : List Element) (_groupKey : Option Int)
    (isApp : Bool) : InsertOut :=
  if g.status.isProcessing = true ∨ paramElements.length = 0 then ⟨0, g, none⟩
  else
    let pr := _prepareElement g paramElements
    let ar := _adjustRange pr.1.options.count pr.1.status.isRecycling
      pr.1.items isApp pr.2
    let g2 := { pr.1 with items := ar.items, status.isProcessing := true }
    ⟨ar.elements.length, g2, some ⟨ar.elements.length, ⟨isApp, ar.removedCount⟩⟩⟩

/-- Inputs the scroll handler reads from the environment: the platform flag
`IS_IOS` and the bounding rectangles of the cached edge elements. -/
structure ScrollEnv where
  isIOS : Bool
  bottomRectTop : Int
  topRectBottom : Int
deriving DecidableEq

/-- Embedding of `_onScroll()` from `src/eventHandler.js`.  Ignores the signal while
processing, on an unchanged offset, or at offset 0 under iOS; otherwise
evaluates the edge in the scroll direction, refreshing a missing cached edge
element and giving up when none exists; within threshold it emits `append`
with the raw offset, or — for the top edge — first runs `_fitItems`,
compensates the offset by a positive cropped distance (repositioning the
viewport), and emits `prepend` with the adjusted offset; finally it records
the processed offset. -/
def _onScroll (env : ScrollEnv) (g : Grid) : Grid × List Event :=
  if g.status.isProcessing = true then (g, [])
  else if (env.isIOS = true ∧ g.viewScrollTop = 0) ∨
      g.status.prevScrollTop = g.viewScrollTop then (g, [])
  else if g.status.prevScrollTop < g.viewScrollTop then
    let g1 :=
      if g.status.bottomElement.isNone then
        { g with status.bottomElement := getBottomElement g }
      else g
    match g1.status.bottomElement with
    | none => (g1, [])
    | some _ =>
      if env.bottomRectTop ≤ g1.status.clientHeight + g1.options.threshold then
        ({ g1 with status.prevScrollTop := g1.viewScrollTop },
          [Event.append g1.viewScrollTop])
      else ({ g1 with status.prevScrollTop := g1.viewScrollTop }, [])
  else
    let g1 :=
      if g.status.topElement.isNone then
        { g with status.topElement := getTopElement g }
      else g
    match g1.status.topElement with
    | none => (g1, [])
    | some _ =>
      if -g1.options.threshold ≤ env.topRectBottom then
        let fr := _fitItems g1
        if 0 < fr.1 then
          ({ fr.2 with
              viewScrollTop := g1.viewScrollTop - fr.1,
              status.prevScrollTop := g1.viewScrollTop - fr.1 },
            [Event.scrollTo (g1.viewScrollTop - fr.1),
              Event.prepend (g1.viewScrollTop - fr.1)])
        else
          ({ fr.2 with status.prevScrollTop := g1.viewScrollTop },
            [Event.prepend g1.viewScrollTop])
      else ({ g1 with status.prevScrollTop := g1.viewScrollTop }, [])

/-- Embedding of `_doubleCheckForPrepend()` : when the viewport is at the absolute top,
(re)starts the polling interval (any previous interval is cleared first). -/
def _doubleCheckForPrepend (g : Grid) : Grid :=
  if g.viewScrollTop = 0 then { g with timer.doubleCheckActive := true }
  else g

/-- One tick of the double-check interval at the current browser offset
`st`: while the offset is still 0 it re-emits `prepend`, decrements the
budget, and clears the interval once the budget reaches 0; at a nonzero
offset the tick does nothing (the interval keeps running). -/
def doubleCheckTick (g : Grid) (st : Int) : Grid × List Event :=
  let g0 := { g with viewScrollTop := st }
  if g0.timer.doubleCheckActive = false then (g0, [])
  else if st = 0 then
    if g0.timer.doubleCheckCount - 1 ≤ 0 then
      ({ g0 with
          timer.doubleCheckCount := g0.timer.doubleCheckCount - 1,
          timer.doubleCheckActive := false }, [Event.prepend 0])
    else
      ({ g0 with timer.doubleCheckCount := g0.timer.doubleCheckCount - 1 },
        [Event.prepend 0])
  else (g0, [])

/-- Runs the double-check interval over a trace of observed browser offsets,
one per tick, collecting the emitted events. -/
def doubleCheckRun (g : Grid) : List Int → Grid × List Event
  | [] => (g, [])
  | st :: rest =>
    let t := doubleCheckTick g st
    let r := doubleCheckRun t.1 rest
    (r.1, t.2 ++ r.2)

/-- The compensation distance computed by `_postLayout` for a prepend-
direction completion: `addItems.length >= items.length ? 0 :
items[addItems.length].position.y`, the post-layout y-position of the first
pre-existing item (0 when the batch covers the whole window). -/
def prependDistance (g : Grid) (addLen : Nat) : Int :=
  if g.items.length ≤ addLen then 0
  else ((g.items.get? addLen).map LMItem.posY).getD 0

/-- Embedding of `_postLayout(isRelayout, addItems, options)` from `src/InfiniteGrid.js`
(reached after `layoutItems` has placed the batch, so `g.items` already
contains it).  Bails out unless processing; refreshes the container height,
the double-check budget, and the cached edge elements; for a prepend-
direction completion computes the compensation distance from the position of
the first pre-existing item and, when positive, moves the viewport down by
it; clears the processing flag; emits `layoutComplete`; and for a prepend-
direction completion starts the double-check loop. -/
def _postLayout (g : Grid) (addLen : Nat) (opts : LayoutOpts) :
    Grid × List Event :=
  if g.status.isProcessing = false then (g, [])
  else
    let g1 := { g with
      containerHeight := getLogicalHeight g,
      timer.doubleCheckCount := RETRY,
      status.topElement := getTopElement g,
      status.bottomElement := getBottomElement g }
    let distance : Int :=
      if opts.isAppend = false then prependDistance g addLen else 0
    let g2 :=
      if opts.isAppend = false ∧ 0 < distance then
        { g1 with
            status.prevScrollTop := g.viewScrollTop + distance,
            viewScrollTop := g.viewScrollTop + distance }
      else g1
    let evs1 : List Event :=
      if opts.isAppend = false ∧ 0 < distance then
        [Event.scrollTo (g.viewScrollTop + distance)]
      else []
    let g3 := { g2 with status.isProcessing := false }
    let g4 := if opts.isAppend = false then _doubleCheckForPrepend g3 else g3
    (g4, evs1 ++
      [Event.layoutComplete addLen opts.isAppend distance opts.removedCount])

/-- The layout-manager part of a status snapshot.  Modelled from the spec:
`LayoutManager.getStatus`/`setStatus` (`LayoutManager.js` is not under the
provided sources) snapshot the window contents with positions and group keys
and the column heights. -/
structure LMStatus where
  itemsData : List LMItem
  colHeights : List Int
deriving DecidableEq

/-- The non-element fields of `_status` copied into `status.prop` by
`getStatus` (fields holding `Element` instances are skipped). -/
structure PropData where
  isProcessing : Bool
  isRecycling : Bool
  prevScrollTop : Int
  clientHeight : Int
deriving DecidableEq

/-- A status snapshot; each field is optional so that a snapshot missing a
required field is representable (JavaScript falsiness of a missing object
field). -/
structure StatusSnapshot where
  html : Option String
  cssText : Option String
  lm : Option LMStatus
  opts : Option Options
  prop : Option PropData
deriving DecidableEq

/-- Embedding of `getStatus()` : snapshots markup, style text, the layout-manager state,
the options, and the non-element `_status` fields. -/
def getStatus (g : Grid) : StatusSnapshot :=
  { html := some g.elHtml,
    cssText := some g.elCssText,
    lm := some ⟨g.items, g.colHeights⟩,
    opts := some g.options,
    prop := some ⟨g.status.isProcessing, g.status.isRecycling,
      g.status.prevScrollTop, g.status.clientHeight⟩ }

/-- Embedding of `setStatus(status)` : returns the instance unchanged when the snapshot or
any required field is missing (an empty markup or style string is falsy and
also rejected); otherwise restores style, markup, options, `_status` fields
and the layout-manager state, then recomputes both cached edge elements from
the restored window. -/
def setStatus (g : Grid) (s : Option StatusSnapshot) : Grid :=
  match s with
  | none => g
  | some st =>
    match st.opts, st.prop, st.lm, st.html, st.cssText with
    | some o, some p, some lmst, some h, some c =>
      if h = "" ∨ c = "" then g
      else
        let g1 := { g with
          elHtml := h,
          elCssText := c,
          options := o,
          status := { g.status with
            isProcessing := p.isProcessing,
            isRecycling := p.isRecycling,
            prevScrollTop := p.prevScrollTop,
            clientHeight := p.clientHeight },
          items := lmst.itemsData,
          colHeights := lmst.colHeights }
        { g1 with
            status.topElement := getTopElement g1,
            status.bottomElement := getBottomElement g1 }
    | _, _, _, _, _ => g

/-- A freshly constructed instance (constructor followed by `_reset` with an
empty container): no items, reset columns, cleared flags and timers. -/
def freshGrid (o : Options) (clientH : Int) (html cssText : String) : Grid :=
  { options := o,
    status := {
      isProcessing := false, isRecycling := false,
      prevScrollTop := 0, clientHeight := clientH, topElement := none,
      bottomElement := none },
    timer := { doubleCheckCount := RETRY, doubleCheckActive := false },
    items := [],
    colHeights := [],
    containerHeight := 0,
    viewScrollTop := 0,
    elHtml := html,
    elCssText := cssText }

/-- A base idle state shared by the concrete evaluations below: default
options (`count 30`, `threshold 300`), empty window, idle flags. -/
def baseGrid : Grid :=
  freshGrid ⟨30, 300⟩ 600 "base" "base"

/-- An idle state scrolled upward toward a present top item, with columns
whose minimum height is 50 (so `fit` crops 50): exercises the prepend
trigger path of `_onScroll`. -/
def scrollWitnessGrid : Grid :=
  { baseGrid with
      status.prevScrollTop := 300,
      status.topElement := some 1,
      viewScrollTop := 200,
      items := [⟨1, some 1, 50⟩],
      colHeights := [50, 60] }

/-- A processing state at scroll offset 200 whose first pre-existing item
(after a one-item prepend batch) sits at y = 50: exercises the prepend
compensation of `_postLayout`. -/
def postWitnessGrid : Grid :=
  { baseGrid with
      status.isProcessing := true,
      viewScrollTop := 200,
      items := [⟨9, some 5, 0⟩, ⟨0, some 1, 50⟩, ⟨1, some 1, 90⟩] }

/-- A processing state at the absolute top: a prepend-direction completion
from here starts the double-check polling loop. -/
def topProcessingGrid : Grid :=
  { baseGrid with status.isProcessing := true, viewScrollTop := 0 }

/-- A state whose double-check interval is running with the full budget. -/
def activeCheckGrid : Grid :=
  { baseGrid with timer := { doubleCheckCount := RETRY, doubleCheckActive := true } }

/-- A two-group four-item window (groups 1 and 2, two items each), as built
by two contiguous batch insertions. -/
def twoGroupWindow : List LMItem :=
  [⟨0, some 1, 0⟩, ⟨1, some 1, 0⟩, ⟨2, some 2, 10⟩, ⟨3, some 2, 10⟩]

/-- A populated instance state (nonempty markup and style, a two-group
window, nonzero column heights and flags) used to exercise the snapshot
round trip. -/
def snapshotWitnessGrid : Grid :=
  { options := ⟨4, 120⟩,
    status := {
      isProcessing := false, isRecycling := true,
      prevScrollTop := 33, clientHeight := 480, topElement := some 0,
      bottomElement := some 3 },
    timer := { doubleCheckCount := RETRY, doubleCheckActive := false },
    items := twoGroupWindow,
    colHeights := [20, 10],
    containerHeight := 20,
    viewScrollTop := 33,
    elHtml := "cards",
    elCssText := "height: 20px" }

/-- Group keys never interleave in the window: whenever two ranks share a
group key, every rank between them carries that key as well.  This is the
window shape produced by inserting each group as one contiguous batch and
evicting only at group boundaries. -/
def GroupsContiguous (items : List LMItem) : Prop :=
  ∀ i j k : Nat, ∀ a b c : LMItem, i ≤ j → j ≤ k →
    items.get? i = some a → items.get? j = some b → items.get? k = some c →
    a.groupKey = c.groupKey → b.groupKey = a.groupKey

/-! Theorems settling the specification claims follow. -/

/-- C2 counterexample: with an empty window but an idle instance and one DIV
element supplied, `_insert` is not a no-op — it returns 1 inserted, raises
the processing flag, and schedules a layout cycle — so an empty window alone
does not cause the rejection the claim (following the spec) asserts. -/
theorem insert_emptyWindow_not_noop :
    baseGrid.items = [] ∧ baseGrid.status.isProcessing = false ∧
    (_insert baseGrid [⟨0, "DIV"⟩] none true).count = 1 ∧
    (_insert baseGrid [⟨0, "DIV"⟩] none true).grid.status.isProcessing = true ∧
    (_insert baseGrid [⟨0, "DIV"⟩] none true).pending ≠ none := by
  decide

/-- C2 (amended): a call to `append`/`prepend` (`_insert`) is a no-op —
returning 0 inserted, changing no state, scheduling no layout cycle and
hence emitting no `layoutComplete` — exactly when the instance is processing
or the supplied element list is empty; an empty window by itself does not
cause rejection. -/
theorem insert_rejection_noop (g : Grid) (pe : List Element) (gkey : Option Int)
    (isApp : Bool) (h : g.status.isProcessing = true ∨ pe = []) :
    _insert g pe gkey isApp = ⟨0, g, none⟩ := by
  unfold _insert
  rcases h with h | h
  · simp [h]
  · simp [h]

/-- C2 witness: the amended no-op rule evaluated on a processing instance and
on an empty batch. -/
theorem insert_rejection_noop_witness :
    _insert { baseGrid with status.isProcessing := true } [⟨0, "DIV"⟩] none true =
      ⟨0, { baseGrid with status.isProcessing := true }, none⟩ ∧
    _insert baseGrid [] none false = ⟨0, baseGrid, none⟩ :=
  ⟨insert_rejection_noop { baseGrid with status.isProcessing := true }
      [⟨0, "DIV"⟩] none true (Or.inl rfl),
    insert_rejection_noop baseGrid [] none false (Or.inr rfl)⟩

/-- C3: the processing flag is the mutex over window and column state — a
scroll signal arriving while it is set is dropped without emitting `append`
or `prepend` and without touching any state, and an insertion attempt while
it is set is rejected with 0 inserted, no state change, and no scheduled
layout cycle. -/
theorem processing_mutex (env : ScrollEnv) (g : Grid) (pe : List Element)
    (gkey : Option Int) (isApp : Bool) (hp : g.status.isProcessing = true) :
    _onScroll env g = (g, []) ∧ _insert g pe gkey isApp = ⟨0, g, none⟩ := by
  constructor
  · unfold _onScroll
    simp [hp]
  · unfold _insert
    simp [hp]

/-- C3 witness: both mutex rejections evaluated on a concrete processing
state. -/
theorem processing_mutex_witness :
    _onScroll ⟨false, 0, 0⟩ { baseGrid with status.isProcessing := true } =
      ({ baseGrid with status.isProcessing := true }, []) ∧
    _insert { baseGrid with status.isProcessing := true } [⟨0, "DIV"⟩] none true =
      ⟨0, { baseGrid with status.isProcessing := true }, none⟩ :=
  processing_mutex ⟨false, 0, 0⟩ { baseGrid with status.isProcessing := true }
    [⟨0, "DIV"⟩] none true rfl

/-- C4: a scroll signal whose offset equals the last processed offset is a
no-op (no event emitted, no state changed), and under a touch-elastic
overscroll platform (`IS_IOS`) a signal at offset 0 is ignored entirely,
whatever the previous offset was. -/
theorem onScroll_unchanged_or_ios_noop (env : ScrollEnv) (g : Grid)
    (h : g.viewScrollTop = g.status.prevScrollTop ∨
      (env.isIOS = true ∧ g.viewScrollTop = 0)) :
    _onScroll env g = (g, []) := by
  have hcond : (env.isIOS = true ∧ g.viewScrollTop = 0) ∨
      g.status.prevScrollTop = g.viewScrollTop := by
    rcases h with h | h
    · exact Or.inr h.symm
    · exact Or.inl h
  unfold _onScroll
  by_cases hp : g.status.isProcessing = true
  · simp [hp]
  · simp [hp, hcond]

/-- C4 witness: an unchanged offset and an iOS offset-0 signal, both
evaluated concretely. -/
theorem onScroll_unchanged_or_ios_noop_witness :
    _onScroll ⟨false, 0, 0⟩ { baseGrid with viewScrollTop := 0 } =
      ({ baseGrid with viewScrollTop := 0 }, []) ∧
    _onScroll ⟨true, 0, 0⟩ { baseGrid with status.prevScrollTop := 120 } =
      ({ baseGrid with status.prevScrollTop := 120 }, []) :=
  ⟨onScroll_unchanged_or_ios_noop ⟨false, 0, 0⟩
      { baseGrid with viewScrollTop := 0 } (Or.inl rfl),
    onScroll_unchanged_or_ios_noop ⟨true, 0, 0⟩
      { baseGrid with status.prevScrollTop := 120 } (Or.inr ⟨rfl, rfl⟩)⟩

/-- C7: `setStatus` presented with a missing snapshot or a snapshot missing
any required field (`options`, `prop`, `layoutManager`, `html`, `cssText`)
returns the instance completely unchanged — it never partially applies a
snapshot. -/
theorem setStatus_missing_field_noop (g : Grid) (s : Option StatusSnapshot)
    (h : s = none ∨ ∃ st, s = some st ∧ (st.html = none ∨ st.cssText = none ∨
      st.lm = none ∨ st.opts = none ∨ st.prop = none)) :
    setStatus g s = g := by
  rcases h with h | ⟨st, rfl, hmiss⟩
  · rw [h]; rfl
  · rcases h1 : st.opts with _ | o <;> rcases h2 : st.prop with _ | p <;>
      rcases h3 : st.lm with _ | lmst <;> rcases h4 : st.html with _ | hh <;>
      rcases h5 : st.cssText with _ | cc <;>
      simp [setStatus, h1, h2, h3, h4, h5] at hmiss ⊢

/-- C7 witness: a snapshot missing its `prop` field leaves a concrete
instance unchanged. -/
theorem setStatus_missing_field_noop_witness :
    setStatus baseGrid
      (some ⟨some "h", some "c", some ⟨[], []⟩, some ⟨30, 300⟩, none⟩) =
      baseGrid :=
  setStatus_missing_field_noop baseGrid
    (some ⟨some "h", some "c", some ⟨[], []⟩, some ⟨30, 300⟩, none⟩)
    (Or.inr ⟨_, rfl, Or.inr (Or.inr (Or.inr (Or.inr rfl)))⟩)

/-- C5: when a scroll signal toward the top finds the top edge item within
the prepend threshold, the handler runs `_fitItems` first; if the cropped
distance is positive it repositions the viewport at the raw offset minus
that distance and emits the `prepend` request carrying exactly that adjusted
offset (and records it as the processed offset) — never the raw one. -/
theorem onScroll_prepend_adjusted_offset (env : ScrollEnv) (g : Grid) (k : Nat)
    (hp : g.status.isProcessing = false)
    (hio : ¬(env.isIOS = true ∧ g.viewScrollTop = 0))
    (hlt : g.viewScrollTop < g.status.prevScrollTop)
    (htop : g.status.topElement = some k)
    (hrect : -g.options.threshold ≤ env.topRectBottom)
    (hfit : 0 < (_fitItems g).1) :
    _onScroll env g =
      ({ (_fitItems g).2 with
          viewScrollTop := g.viewScrollTop - (_fitItems g).1,
          status.prevScrollTop := g.viewScrollTop - (_fitItems g).1 },
        [Event.scrollTo (g.viewScrollTop - (_fitItems g).1),
          Event.prepend (g.viewScrollTop - (_fitItems g).1)]) := by
  have hne : ¬(g.status.prevScrollTop = g.viewScrollTop) := by omega
  have hnlt : ¬(g.status.prevScrollTop < g.viewScrollTop) := by omega
  unfold _onScroll
  simp [hp, hio, hne, hnlt, htop, hrect, hfit]

/-- C5 witness: cropping 50 from a raw offset of 200 repositions and emits
`prepend` at 150. -/
theorem onScroll_prepend_adjusted_offset_witness :
    (_onScroll ⟨false, 0, 0⟩ scrollWitnessGrid).2 =
      [Event.scrollTo 150, Event.prepend 150] := by
  rw [onScroll_prepend_adjusted_offset ⟨false, 0, 0⟩ scrollWitnessGrid 1
    (by decide) (by decide) (by decide) (by decide) (by decide) (by decide)]
  decide

/-- C6: after a prepend-direction layout completion, when the compensation
distance (the post-layout y-position of the previously-top item) is
positive, the scroll offset becomes the current offset plus that distance —
200px with a 50px shift yields 250px — the `layoutComplete` payload's
`distance` field carries exactly that value, and the distance is 0 when the
prepended batch covers the whole window. -/
theorem postLayout_prepend_compensation (g : Grid) (addLen rc : Nat)
    (hp : g.status.isProcessing = true) :
    (0 < prependDistance g addLen →
      (_postLayout g addLen ⟨false, rc⟩).1.viewScrollTop =
        g.viewScrollTop + prependDistance g addLen ∧
      (_postLayout g addLen ⟨false, rc⟩).1.status.prevScrollTop =
        g.viewScrollTop + prependDistance g addLen) ∧
    Event.layoutComplete addLen false (prependDistance g addLen) rc ∈
      (_postLayout g addLen ⟨false, rc⟩).2 ∧
    (g.items.length ≤ addLen → prependDistance g addLen = 0) := by
  refine ⟨?_, ?_, ?_⟩
  · intro hd
    unfold _postLayout _doubleCheckForPrepend
    simp only [hp, hd, and_true, if_true, Bool.true_eq_false, if_false]
    constructor <;> split_ifs <;> rfl
  · unfold _postLayout
    simp [hp]
  · intro hlen
    unfold prependDistance
    simp [hlen]

/-- C6 witness: offset 200 with shift 50 becomes 250, carried in the
`layoutComplete` payload. -/
theorem postLayout_prepend_compensation_witness :
    (_postLayout postWitnessGrid 1 ⟨false, 0⟩).1.viewScrollTop = 250 ∧
    Event.layoutComplete 1 false 50 0 ∈ (_postLayout postWitnessGrid 1 ⟨false, 0⟩).2 := by
  have h := postLayout_prepend_compensation postWitnessGrid 1 0 (by decide)
  have hd : prependDistance postWitnessGrid 1 = 50 := by decide
  refine ⟨?_, ?_⟩
  · have h1 := (h.1 (by decide)).1
    rw [hd] at h1
    rw [h1]
    decide
  · have h2 := h.2.1
    rw [hd] at h2
    exact h2

/-- Any completion step entered while processing emits a `layoutComplete`
event carrying the batch length, the direction, and the cropped count. -/
lemma postLayout_emits_layoutComplete (g : Grid) (addLen : Nat)
    (opts : LayoutOpts) (hp : g.status.isProcessing = true) :
    ∃ d, Event.layoutComplete addLen opts.isAppend d opts.removedCount ∈
      (_postLayout g addLen opts).2 := by
  unfold _postLayout
  refine ⟨if opts.isAppend = false then prependDistance g addLen else 0, ?_⟩
  simp [hp]

/-- C9 counterexample: a prepend-direction completion at the top starts the
polling loop; a tick at offset 5 (the offset has moved away from the top)
leaves the loop running rather than stopping it, and a subsequent tick back
at offset 0 re-emits `prepend` — so the loop does not stop when the offset
moves away from the top. -/
theorem doubleCheck_not_stopped_by_offset :
    (_postLayout topProcessingGrid 0 ⟨false, 0⟩).1.timer.doubleCheckActive = true ∧
    (doubleCheckTick (_postLayout topProcessingGrid 0 ⟨false, 0⟩).1
      5).1.timer.doubleCheckActive = true ∧
    (doubleCheckRun (_postLayout topProcessingGrid 0 ⟨false, 0⟩).1 [5, 0]).2 =
      [Event.prepend 0] := by
  decide

/-- C9 (amended): only a prepend-direction layout completion starts the
double-check polling loop (an append-direction completion never changes
whether it runs), a start loads the fixed attempt budget `RETRY`, a tick
re-emits the prepend request only while the scroll offset is exactly 0, and
the loop stops precisely when a zero-offset tick exhausts the budget — a
tick at a nonzero offset emits nothing and consumes no budget but leaves the
loop running. -/
theorem doubleCheck_budget_behavior (g : Grid) (len rc : Nat) (st : Int) :
    ((_postLayout g len ⟨true, rc⟩).1.timer.doubleCheckActive =
      g.timer.doubleCheckActive) ∧
    (g.status.isProcessing = true →
      (_postLayout g len ⟨false, rc⟩).1.viewScrollTop = 0 →
      (_postLayout g len ⟨false, rc⟩).1.timer.doubleCheckActive = true ∧
      (_postLayout g len ⟨false, rc⟩).1.timer.doubleCheckCount = RETRY) ∧
    (st ≠ 0 → doubleCheckTick g st = ({ g with viewScrollTop := st }, [])) ∧
    (g.timer.doubleCheckActive = true →
      (doubleCheckTick g 0).2 = [Event.prepend 0] ∧
      (doubleCheckTick g 0).1.timer.doubleCheckCount =
        g.timer.doubleCheckCount - 1 ∧
      ((doubleCheckTick g 0).1.timer.doubleCheckActive = false ↔
        g.timer.doubleCheckCount - 1 ≤ 0)) ∧
    (g.timer.doubleCheckActive = false → (doubleCheckTick g st).2 = []) := by
  refine ⟨?_, ?_, ?_, ?_, ?_⟩
  · unfold _postLayout
    by_cases hp : g.status.isProcessing = false <;> simp [hp]
  · intro hp hv
    unfold _postLayout _doubleCheckForPrepend at hv ⊢
    simp [hp] at hv ⊢
    split_ifs at hv ⊢ <;> simp_all
  · intro hst
    unfold doubleCheckTick
    by_cases ha : ({ g with viewScrollTop := st } : Grid).timer.doubleCheckActive = false <;>
      simp [ha, hst]
  · intro ha
    unfold doubleCheckTick
    by_cases hc : g.timer.doubleCheckCount - 1 ≤ 0 <;> simp [ha, hc]
  · intro ha
    unfold doubleCheckTick
    simp [ha]

/-- C9 witness: the amended behavior evaluated concretely — an append
completion leaves the loop alone, a prepend completion at the top arms it
with budget `RETRY`, a nonzero tick is inert, and a zero tick emits. -/
theorem doubleCheck_budget_behavior_witness :
    (_postLayout topProcessingGrid 0 ⟨true, 0⟩).1.timer.doubleCheckActive =
      topProcessingGrid.timer.doubleCheckActive ∧
    ((_postLayout topProcessingGrid 0 ⟨false, 0⟩).1.timer.doubleCheckActive = true ∧
      (_postLayout topProcessingGrid 0 ⟨false, 0⟩).1.timer.doubleCheckCount = RETRY) ∧
    doubleCheckTick activeCheckGrid 7 =
      ({ activeCheckGrid with viewScrollTop := 7 }, []) ∧
    (doubleCheckTick activeCheckGrid 0).2 = [Event.prepend 0] := by
  refine ⟨(doubleCheck_budget_behavior topProcessingGrid 0 0 7).1,
    (doubleCheck_budget_behavior topProcessingGrid 0 0 7).2.1 (by decide) (by decide),
    (doubleCheck_budget_behavior activeCheckGrid 0 0 7).2.2.1 (by decide),
    ((doubleCheck_budget_behavior activeCheckGrid 0 0 0).2.2.2.1 (by decide)).1⟩

/-- C10 counterexample: a supplied element whose tag name is `LINK` — not
DIV, SPAN, or LI — passes the source's unanchored `/DIV|SPAN|LI/` filter, so
the call returns 1 while the number of supplied DIV/SPAN/LI elements is 0
(and the processing flag is still raised). -/
theorem insert_count_substring_filter :
    (_insert baseGrid [⟨0, "LINK"⟩] none true).count = 1 ∧
    (([⟨0, "LINK"⟩] : List Element).filter
      (fun v => decide (v.tagName = "DIV" ∨ v.tagName = "SPAN" ∨
        v.tagName = "LI"))).length = 0 ∧
    (_insert baseGrid [⟨0, "LINK"⟩] none true).grid.status.isProcessing = true := by
  decide

/-- C10 (amended): for a non-empty batch inserted while idle, the returned
count is the number of supplied elements whose tag name *contains* DIV,
SPAN, or LI as a substring (the unanchored regex filter) that remain after
`_adjustRange` trimming — not the number supplied — and the call raises the
processing flag and schedules a layout cycle whose completion emits
`layoutComplete` (even when the filtered batch is empty). -/
theorem insert_count_spec (g : Grid) (pe : List Element) (gkey : Option Int)
    (isApp : Bool) (hp : g.status.isProcessing = false) (hne : pe ≠ []) :
    (_insert g pe gkey isApp).count =
      (_adjustRange (_prepareElement g pe).1.options.count
        (_prepareElement g pe).1.status.isRecycling
        (_prepareElement g pe).1.items isApp
        (pe.filter (fun v => matchesCardTag v.tagName))).elements.length ∧
    (_insert g pe gkey isApp).grid.status.isProcessing = true ∧
    ∃ p : PendingLayout, (_insert g pe gkey isApp).pending = some p ∧
      p.addLen = (_insert g pe gkey isApp).count ∧ p.opts.isAppend = isApp ∧
      ∃ d, Event.layoutComplete p.addLen isApp d p.opts.removedCount ∈
        (_postLayout (_insert g pe gkey isApp).grid p.addLen p.opts).2 := by
  have hlen : ¬(pe.length = 0) := by
    simpa using hne
  have hguard : ¬(g.status.isProcessing = true ∨ pe.length = 0) := by
    simp [hp, hlen]
  unfold _insert
  rw [if_neg hguard]
  refine ⟨rfl, rfl, ⟨_, rfl, rfl, rfl, ?_⟩⟩
  exact postLayout_emits_layoutComplete _ _ _ rfl

/-- C10 witness: a batch of one P element (filtered out) and one DIV element
returns 1 while raising the processing flag. -/
theorem insert_count_spec_witness :
    (_insert baseGrid [⟨0, "P"⟩, ⟨1, "DIV"⟩] none true).count = 1 ∧
    (_insert baseGrid [⟨0, "P"⟩, ⟨1, "DIV"⟩] none true).grid.status.isProcessing =
      true := by
  have h := insert_count_spec baseGrid [⟨0, "P"⟩, ⟨1, "DIV"⟩] none true rfl
    (by decide)
  refine ⟨?_, h.2.1⟩
  rw [h.1]
  decide

/-- C8: restoring `getStatus` output into a freshly constructed instance
reproduces the source window verbatim (hence the same item keys, group keys,
and relative rank order) and the same column heights, and both cached edge
items are recomputed from the restored window rather than taken from the
snapshot. -/
theorem snapshot_roundtrip (g : Grid) (o : Options) (clientH : Int)
    (html cssT : String) (hh : ¬g.elHtml = "") (hcs : ¬g.elCssText = "") :
    (setStatus (freshGrid o clientH html cssT) (some (getStatus g))).items =
      g.items ∧
    (setStatus (freshGrid o clientH html cssT) (some (getStatus g))).colHeights =
      g.colHeights ∧
    (setStatus (freshGrid o clientH html cssT)
        (some (getStatus g))).status.topElement =
      (getTopItem g.items).map LMItem.key ∧
    (setStatus (freshGrid o clientH html cssT)
        (some (getStatus g))).status.bottomElement =
      (getBottomItem g.items).map LMItem.key := by
  unfold setStatus getStatus freshGrid getTopElement getBottomElement
  simp [hh, hcs]

/-- C8 witness: the round trip evaluated on a populated instance restored
into a fresh one. -/
theorem snapshot_roundtrip_witness :
    (setStatus (freshGrid ⟨30, 300⟩ 600 "fh" "fc")
        (some (getStatus snapshotWitnessGrid))).items =
      snapshotWitnessGrid.items ∧
    (setStatus (freshGrid ⟨30, 300⟩ 600 "fh" "fc")
        (some (getStatus snapshotWitnessGrid))).colHeights =
      snapshotWitnessGrid.colHeights ∧
    (setStatus (freshGrid ⟨30, 300⟩ 600 "fh" "fc")
        (some (getStatus snapshotWitnessGrid))).status.topElement =
      (getTopItem snapshotWitnessGrid.items).map LMItem.key ∧
    (setStatus (freshGrid ⟨30, 300⟩ 600 "fh" "fc")
        (some (getStatus snapshotWitnessGrid))).status.bottomElement =
      (getBottomItem snapshotWitnessGrid.items).map LMItem.key :=
  snapshot_roundtrip snapshotWitnessGrid ⟨30, 300⟩ 600 "fh" "fc"
    (by decide) (by decide)

/-- A window whose items all carry one group key never interleaves groups. -/
lemma groupsContiguous_of_const (items : List LMItem) (gk : Option Int)
    (h : ∀ it ∈ items, it.groupKey = gk) : GroupsContiguous items := by
  intro i j k a b c hij hjk ha hb hc hac
  rw [h b (List.get?_mem hb), h a (List.get?_mem ha)]

/-- Group contiguity follows from its bounded (decidable) form over the
window's indices. -/
lemma groupsContiguous_of_bounded (items : List LMItem)
    (h : ∀ i ∈ List.range items.length, ∀ j ∈ List.range items.length,
      ∀ k ∈ List.range items.length, i ≤ j → j ≤ k →
      (items.get? i).map LMItem.groupKey = (items.get? k).map LMItem.groupKey →
      (items.get? j).map LMItem.groupKey = (items.get? i).map LMItem.groupKey) :
    GroupsContiguous items := by
  intro i j k a b c hij hjk ha hb hc' hac
  have hi : i < items.length := by
    by_contra hge
    rw [List.get?_eq_none.2 (le_of_not_lt hge)] at ha
    exact absurd ha (by simp)
  have hk : k < items.length := by
    by_contra hge
    rw [List.get?_eq_none.2 (le_of_not_lt hge)] at hc'
    exact absurd hc' (by simp)
  have hj : j < items.length := by omega
  have hmap := h i (List.mem_range.mpr hi) j (List.mem_range.mpr hj)
    k (List.mem_range.mpr hk) hij hjk (by rw [ha, hc']; simpa using hac)
  rw [hb, ha] at hmap
  simpa using hmap

/-- A nonnegative delimiter index always sits on a group boundary. -/
lemma isBoundary_of_delimiter (items : List LMItem) (isTop : Bool)
    (overflow : Int) (h : 0 ≤ getDelimiterIndex items isTop overflow) :
    isBoundary items (getDelimiterIndex items isTop overflow).toNat = true := by
  unfold getDelimiterIndex at h ⊢
  cases isTop with
  | false =>
    simp only [Bool.false_eq_true, if_false] at h ⊢
    rcases hf : (List.range items.length).reverse.find?
        (fun (i : Nat) => decide ((i : Int) ≤ (items.length : Int) - overflow) &&
          isBoundary items i) with _ | i
    · rw [hf] at h
      exact absurd h (by decide)
    · have hp := List.find?_some hf
      simp only [Bool.and_eq_true, decide_eq_true_eq] at hp
      simpa using hp.2
  | true =>
    simp only [if_true] at h ⊢
    rcases hf : (List.range items.length).find?
        (fun (i : Nat) => decide (overflow ≤ (i : Int)) && isBoundary items i)
      with _ | i
    · rw [hf] at h
      exact absurd h (by decide)
    · have hp := List.find?_some hf
      simp only [Bool.and_eq_true, decide_eq_true_eq] at hp
      simpa using hp.2

/-- In a group-contiguous window, no group key occurs on both sides of a
group boundary. -/
lemma boundary_no_straddle (items : List LMItem) (n : Nat)
    (hb : isBoundary items n = true) (hc : GroupsContiguous items)
    (gk : Option Int) :
    (items.take n).filter (fun it => decide (it.groupKey = gk)) = [] ∨
    (items.drop n).filter (fun it => decide (it.groupKey = gk)) = [] := by
  rcases ha : items.get? (n - 1) with _ | a
  · rw [isBoundary, ha] at hb
    exact absurd hb (by simp)
  rcases hbv : items.get? n with _ | b
  · rw [isBoundary, ha, hbv] at hb
    exact absurd hb (by simp)
  rw [isBoundary, ha, hbv] at hb
  simp only [Bool.and_eq_true, decide_eq_true_eq] at hb
  obtain ⟨hn1, hab⟩ := hb
  by_cases h1 : (items.take n).filter (fun it => decide (it.groupKey = gk)) = []
  · exact Or.inl h1
  right
  by_contra h2
  obtain ⟨x, hxmem⟩ := List.exists_mem_of_ne_nil _ h1
  obtain ⟨y, hymem⟩ := List.exists_mem_of_ne_nil _ h2
  rw [List.mem_filter, decide_eq_true_eq] at hxmem hymem
  obtain ⟨hxmem, hxkey⟩ := hxmem
  obtain ⟨hymem, hykey⟩ := hymem
  obtain ⟨i, hi⟩ := List.mem_iff_get?.1 hxmem
  obtain ⟨m, hm⟩ := List.mem_iff_get?.1 hymem
  have hilen : i < (items.take n).length := by
    by_contra hge
    rw [List.get?_eq_none.2 (le_of_not_lt hge)] at hi
    exact absurd hi (by simp)
  have hilt : i < n := by
    have := hilen
    rw [List.length_take] at this
    exact lt_of_lt_of_le this (min_le_left _ _)
  have hx : items.get? i = some x := by
    rw [← List.get?_take hilt]
    exact hi
  have hy : items.get? (n + m) = some y := by
    rw [← List.get?_drop]
    exact hm
  have hkxy : x.groupKey = y.groupKey := by rw [hxkey, hykey]
  have e1 : a.groupKey = x.groupKey :=
    hc i (n - 1) (n + m) x a y (by omega) (by omega) hx ha hy hkxy
  have e2 : b.groupKey = x.groupKey :=
    hc i n (n + m) x b y (by omega) (by omega) hx hbv hy hkxy
  exact hab (e1.trans e2.symm)

/-- C1: in `_adjustRange`, when `getDelimiterIndex` returns a negative index
the window is left untouched (zero items evicted, capacity temporarily
exceeded), and — for any group-contiguous window — after the call every
group key's items are either fully retained or fully absent: eviction never
splits a group. -/
theorem adjustRange_group_integrity (count : Int) (recFlag : Bool)
    (items : List LMItem) (isTop : Bool) (elements : List Element)
    (hc : GroupsContiguous items) :
    (getDelimiterIndex items isTop
        (adjustDiff count items (trimmedElements count isTop elements)) < 0 →
      (_adjustRange count recFlag items isTop elements).items = items) ∧
    ∀ gk : Option Int,
      ((_adjustRange count recFlag items isTop elements).items.filter
          (fun it => decide (it.groupKey = gk)) =
        items.filter (fun it => decide (it.groupKey = gk))) ∨
      (_adjustRange count recFlag items isTop elements).items.filter
          (fun it => decide (it.groupKey = gk)) = [] := by
  constructor
  · intro hneg
    unfold _adjustRange
    split_ifs with h1 h2
    · rfl
    · rfl
    · exact absurd (Or.inr hneg) h2
  · intro gk
    unfold _adjustRange
    split_ifs with h1 h2
    · left; rfl
    · left; rfl
    · push_neg at h2
      obtain ⟨hdiff, hidx⟩ := h2
      have hbnd := isBoundary_of_delimiter items isTop
        (adjustDiff count items (trimmedElements count isTop elements)) hidx
      rcases boundary_no_straddle items
          (getDelimiterIndex items isTop
            (adjustDiff count items (trimmedElements count isTop elements))).toNat
          hbnd hc gk with h | h
      · cases isTop with
        | false =>
          right
          simpa [adjustItems] using h
        | true =>
          left
          simp only [adjustItems, if_true, AdjustOut.items]
          conv_rhs => rw [← List.take_append_drop
            (getDelimiterIndex items true
              (adjustDiff count items (trimmedElements count true elements))).toNat
            items]
          rw [List.filter_append, h, List.nil_append]
      · cases isTop with
        | false =>
          left
          simp only [adjustItems, Bool.false_eq_true, if_false, AdjustOut.items]
          conv_rhs => rw [← List.take_append_drop
            (getDelimiterIndex items false
              (adjustDiff count items (trimmedElements count false elements))).toNat
            items]
          rw [List.filter_append, h, List.append_nil]
        | true =>
          right
          simpa [adjustItems] using h

/-- C1 witness: with capacity 2, a two-group four-item window, and a
one-element append batch, the overflow of 3 admits no boundary-respecting
delimiter (the only boundary is at rank 2), so `getDelimiterIndex` returns
−1 and the window survives intact — and group 1 is fully present. -/
theorem adjustRange_group_integrity_witness :
    (_adjustRange 2 true twoGroupWindow true [⟨9, "DIV"⟩]).items =
      twoGroupWindow ∧
    (((_adjustRange 2 true twoGroupWindow true [⟨9, "DIV"⟩]).items.filter
        (fun it => decide (it.groupKey = some 1)) =
      twoGroupWindow.filter (fun it => decide (it.groupKey = some 1))) ∨
      (_adjustRange 2 true twoGroupWindow true [⟨9, "DIV"⟩]).items.filter
        (fun it => decide (it.groupKey = some 1)) = []) := by
  have hc : GroupsContiguous twoGroupWindow :=
    groupsContiguous_of_bounded twoGroupWindow (by decide)
  have h := adjustRange_group_integrity 2 true twoGroupWindow true
    [⟨9, "DIV"⟩] hc
  exact ⟨h.1 (by decide), h.2 (some 1)⟩

end InfiniteGrid
